import Mathlib

/-!
Verification development for the EvaraValve repository: the device liveness
state machine, adaptive polling scheduler, reconnect controller and notifier.

The repository contains several near-duplicate server variants.  Three of them
are embedded here, each as pure Lean functions over explicit state:

* `runOnlinePollingCycle` — `server.js` (v3.0, manual-reconnect design):
  the polling cycle body of `PollingService.runOnlinePollingCycle`, together
  with the `/api/reconnect` route handler `apiReconnect`.
* `pollBlynkData_v6` — `src/unnamed/part_005` (v6.0, active-reconnect design):
  the `pollBlynkData` cycle with finally-semantics rescheduling, the
  `getNextPollRate` scheduler, `broadcastDataUpdate`, and an event-loop model
  (`loopStep`) of the force-poll WebSocket handler.
* `pollBlynkData_v63` — `src/unnamed/part_000` / `part_009` (v6.3,
  session-gated design): the streak-based `pollBlynkData` with safety
  shutdown.

Machine integers are modelled as `Int`/`Nat` (JS numbers are integral in all
the code paths embedded here); fetch outcomes are an explicit sum type.
-/

/-- A fetched pin snapshot.  The heartbeat pin `v5` is kept as the parsed
integer (`none` when the field is missing or non-numeric, mirroring a `NaN`
result of `parseInt`); the remaining pins are an opaque association list. -/
structure Snapshot where
  v5 : Option Int
  other : List (String × String)
deriving DecidableEq, Repr

/-- The empty cache `{}` that every variant starts with. -/
def emptySnap : Snapshot := ⟨none, []⟩

/-- A snapshot whose heartbeat pin is `h` and with no other pins. -/
def snap (h : Int) : Snapshot := ⟨some h, []⟩

/-- Error taxonomy of a fetch, from the spec section 7: network-level failure
or a non-success upstream status. -/
inductive FetchError
  | networkFailure
  | upstreamRejected (status : Nat)
deriving DecidableEq, Repr

/-- Outcome of one telemetry fetch. -/
inductive FetchResult
  | ok (data : Snapshot)
  | err (e : FetchError)
deriving DecidableEq, Repr

/-- Heartbeat extraction `parseInt(newData.v5) || 0`: a missing or
non-numeric field defaults to 0 (`parseInt` gives `NaN`, and `NaN || 0` is 0;
`0 || 0` is likewise 0). -/
def extractUptime (d : Snapshot) : Int := d.v5.getD 0

/-! ## server.js (v3.0) — `PollingService.runOnlinePollingCycle` -/

/-- The mutable globals of `server.js` (`state`) read and written by the
polling cycle. -/
structure ServerState where
  deviceDataCache : Snapshot
  lastUptimeValue : Int
  isDeviceOnline : Bool
  consecutiveStalePolls : Nat
deriving DecidableEq, Repr

/-- Events published over the WebSocket by one cycle of `server.js`:
`broadcastStatus` and `broadcastDataUpdate`. -/
inductive SEvent
  | statusChanged (online : Bool)
  | dataUpdated (payload : Snapshot)
deriving DecidableEq, Repr

/-- `CONFIG.STALE_POLL_THRESHOLD` in `server.js`. -/
def STALE_POLL_THRESHOLD : Nat := 3

/-- `CONFIG.POLLING_RATE_MS` in `server.js`. -/
def POLLING_RATE_MS_v30 : Nat := 1500

/-- Output of one `server.js` polling cycle: the new state, the published
events in order, and the delay of the next scheduled cycle (`none` when the
cycle returns without calling `setTimeout`, i.e. the loop stops). -/
structure SOut where
  state : ServerState
  events : List SEvent
  nextDelay : Option Nat
deriving DecidableEq, Repr

/-- One cycle of `PollingService.runOnlinePollingCycle` (`server.js` lines
155-197).  On a fetch error the catch block flips an online device to offline
and returns without rescheduling; on success the uptime pin is compared with
`lastUptimeValue` (the `currentUptime !== undefined` test is vacuous because
of the `|| 0` default); a stale streak at or past the threshold returns
without rescheduling; otherwise the cache is replaced and broadcast, and the
trailing `if (state.isDeviceOnline)` schedules the next cycle. -/
def runOnlinePollingCycle (st : ServerState) (res : FetchResult) : SOut :=
  match res with
  | .err _ =>
      if st.isDeviceOnline then
        ⟨{ st with isDeviceOnline := false }, [.statusChanged false], none⟩
      else ⟨st, [], none⟩
  | .ok newData =>
      let currentUptime := extractUptime newData
      if st.lastUptimeValue = currentUptime then
        let st₁ := { st with consecutiveStalePolls := st.consecutiveStalePolls + 1 }
        if STALE_POLL_THRESHOLD ≤ st₁.consecutiveStalePolls then
          if st₁.isDeviceOnline then
            ⟨{ st₁ with isDeviceOnline := false }, [.statusChanged false], none⟩
          else ⟨st₁, [], none⟩
        else
          let st₂ := { st₁ with deviceDataCache := newData }
          ⟨st₂, [.dataUpdated newData],
            if st₂.isDeviceOnline then some POLLING_RATE_MS_v30 else none⟩
      else
        let evs := if st.isDeviceOnline then [] else [SEvent.statusChanged true]
        let st₁ := { st with consecutiveStalePolls := 0, isDeviceOnline := true,
                             lastUptimeValue := currentUptime,
                             deviceDataCache := newData }
        ⟨st₁, evs ++ [.dataUpdated newData], some POLLING_RATE_MS_v30⟩

/-! ## server.js (v3.0) — the `/api/reconnect` route -/

/-- `CONFIG.RECONNECT_COOLDOWN_MS` in `server.js`. -/
def RECONNECT_COOLDOWN_MS : Nat := 10000

/-- The globals consulted by the `/api/reconnect` handler. -/
structure ReconnectState where
  lastReconnectTime : Nat
  isReconnecting : Bool
  isDeviceOnline : Bool
deriving DecidableEq, Repr

/-- The four responses of the `/api/reconnect` handler: 429 with the
remaining cooldown in seconds, 409, 200 (already online) and 202. -/
inductive ReconnectResponse
  | cooldown (remainingSeconds : Nat)
  | inProgress
  | alreadyOnline
  | accepted
deriving DecidableEq, Repr

/-- The `/api/reconnect` handler (`server.js` lines 262-281).  `Math.ceil` of
a positive rational `x / 1000` is `(x + 999) / 1000` in natural division.
Only the accepted branch mutates state (it stamps `lastReconnectTime`). -/
def apiReconnect (st : ReconnectState) (now : Nat) :
    ReconnectState × ReconnectResponse :=
  let timeSince := now - st.lastReconnectTime
  if timeSince < RECONNECT_COOLDOWN_MS then
    (st, .cooldown ((RECONNECT_COOLDOWN_MS - timeSince + 999) / 1000))
  else if st.isReconnecting then
    (st, .inProgress)
  else if st.isDeviceOnline then
    (st, .alreadyOnline)
  else
    ({ st with lastReconnectTime := now }, .accepted)

/-- `server.js` startup validation (`main`, lines 239-244): with no token in
the environment (or an empty one, both falsy in JS) the process exits. -/
def startupExits_v30 (envToken : Option String) : Bool :=
  match envToken with
  | none => true
  | some s => s = ""

/-! ## part_005 (v6.0) — `pollBlynkData`, `getNextPollRate`, `broadcastDataUpdate` -/

/-- `POLLING_RATE_ONLINE_MS` in part_005. -/
def POLLING_RATE_ONLINE_MS : Nat := 1500

/-- `POLLING_RATE_OFFLINE_MS` in part_005. -/
def POLLING_RATE_OFFLINE_MS : Nat := 15000

/-- `POLLING_RATE_ACTIVE_CHECK_MS` in part_005. -/
def POLLING_RATE_ACTIVE_CHECK_MS : Nat := 5000

/-- `ACTIVE_CHECK_DURATION_MS` in part_005. -/
def ACTIVE_CHECK_DURATION_MS : Nat := 30000

/-- `OFFLINE_GRACE_PERIOD_MS` in part_005. -/
def OFFLINE_GRACE_PERIOD_MS : Nat := 6000

/-- The mutable globals of part_005 read and written by `pollBlynkData` and
`getNextPollRate` (timer handles are modelled separately, in `LoopSt`). -/
structure V6State where
  deviceDataCache : Snapshot
  lastUptimeValue : Int
  lastFreshDataTimestamp : Nat
  isDeviceOnline : Bool
  isActivelyChecking : Bool
deriving DecidableEq, Repr

/-- The `data-update` WebSocket message built by `broadcastDataUpdate` in
part_005 (lines 129-149). -/
structure DataUpdateMsg where
  payload : Snapshot
  timestamp : Nat
  isOnline : Bool
  isFresh : Bool
deriving DecidableEq, Repr

/-- part_005 `broadcastDataUpdate(data, isFresh)`: replaces the cache with
`data` and publishes a message whose `isOnline` is the current belief and
whose `isFresh` is `isFresh && isDeviceOnline`. -/
def broadcastDataUpdate (st : V6State) (data : Snapshot) (isFresh : Bool)
    (now : Nat) : V6State × DataUpdateMsg :=
  let st' := { st with deviceDataCache := data }
  (st', { payload := data, timestamp := now,
          isOnline := st'.isDeviceOnline,
          isFresh := isFresh && st'.isDeviceOnline })

/-- part_005 `getNextPollRate` (lines 122-126): the online test comes first,
then the active-check test, then the offline default. -/
def getNextPollRate (st : V6State) : Nat :=
  if st.isDeviceOnline then POLLING_RATE_ONLINE_MS
  else if st.isActivelyChecking then POLLING_RATE_ACTIVE_CHECK_MS
  else POLLING_RATE_OFFLINE_MS

/-- Output of one part_005 polling cycle: the new state, the published
`data-update` messages, and the delay of the next scheduled cycle (`none`
would mean the loop stops; the `finally` block always schedules). -/
structure V6Out where
  state : V6State
  msgs : List DataUpdateMsg
  nextDelay : Option Nat
deriving DecidableEq, Repr

/-- The try/catch body of part_005 `pollBlynkData` (lines 69-113).  On
success the guard `uptimeHasChanged = currentUptime > 0 && currentUptime !==
lastUptimeValue` decides between the fresh branch (update trackers, replace
cache, broadcast fresh) and the stale branch (grace-period check, replace
cache, broadcast stale); the catch block flips an online device offline and
publishes nothing. -/
def pollBlynkDataBody_v6 (st : V6State) (res : FetchResult) (now : Nat) :
    V6State × List DataUpdateMsg :=
  match res with
  | .err _ =>
      (if st.isDeviceOnline then { st with isDeviceOnline := false } else st,
       ([] : List DataUpdateMsg))
  | .ok newData =>
      let currentUptime := extractUptime newData
      if 0 < currentUptime ∧ currentUptime ≠ st.lastUptimeValue then
        let st₁ :=
          if st.isDeviceOnline then st
          else { st with isDeviceOnline := true, isActivelyChecking := false }
        let st₂ := { st₁ with lastFreshDataTimestamp := now,
                              lastUptimeValue := currentUptime }
        let b := broadcastDataUpdate st₂ newData true now
        (b.1, [b.2])
      else
        let timeSinceFreshData := now - st.lastFreshDataTimestamp
        let st₁ :=
          if st.isDeviceOnline ∧ OFFLINE_GRACE_PERIOD_MS < timeSinceFreshData
          then { st with isDeviceOnline := false } else st
        let b := broadcastDataUpdate st₁ newData false now
        (b.1, [b.2])

/-- One full cycle of part_005 `pollBlynkData` (lines 65-119): the try/catch
body followed by the `finally` block, which always schedules the next cycle
at `getNextPollRate` of the resulting state, whatever the body did. -/
def pollBlynkData_v6 (st : V6State) (res : FetchResult) (now : Nat) : V6Out :=
  let b := pollBlynkDataBody_v6 st res now
  ⟨b.1, b.2, some (getNextPollRate b.1)⟩

/-! ## part_005 (v6.0) — event-loop model of the force-poll handler

part_005 runs on the single-threaded JS event loop: `pollBlynkData` suspends
only at its `fetch`, so a cycle is two atomic segments — a synchronous prefix
(clear the pending timer, start the fetch) and a completion segment (apply
the result, schedule the next timer).  The `force-poll` WebSocket handler
(lines 190-213) runs synchronously between segments and calls `pollBlynkData`
directly.  `LoopSt` abstracts exactly the scheduling state: how many fetches
are pending, whether a poll timer is scheduled, and the force-poll fields. -/

/-- Scheduling state of the part_005 event loop. -/
structure LoopSt where
  inFlight : Nat
  timerSet : Bool
  isActivelyChecking : Bool
  forcePollCooldownUntil : Nat
deriving DecidableEq, Repr

/-- Atomic events of the part_005 event loop. -/
inductive LoopEv
  | timerFire
  | fetchDone
  | forcePoll (now : Nat)
deriving DecidableEq, Repr

/-- The synchronous prefix of `pollBlynkData`: `if (pollTimeoutId)
clearTimeout(pollTimeoutId)` then the `fetch` is issued (one more pending
fetch). -/
def startCycleSync (st : LoopSt) : LoopSt :=
  { st with timerSet := false, inFlight := st.inFlight + 1 }

/-- One atomic step of the part_005 event loop.  A timer can only fire if it
is scheduled (firing consumes it, then the cycle prefix runs); a fetch
completion runs the rest of `pollBlynkData`, whose `finally` schedules the
next timer; a `force-poll` message inside the cooldown is ignored, and
otherwise stamps the cooldown, raises `isActivelyChecking` and calls
`pollBlynkData` directly — with no check for an already-pending fetch. -/
def loopStep (st : LoopSt) (ev : LoopEv) : LoopSt :=
  match ev with
  | .timerFire =>
      if st.timerSet then startCycleSync { st with timerSet := false } else st
  | .fetchDone =>
      if 0 < st.inFlight then
        { st with inFlight := st.inFlight - 1, timerSet := true }
      else st
  | .forcePoll now =>
      if now < st.forcePollCooldownUntil then st
      else
        startCycleSync
          { st with forcePollCooldownUntil := now + ACTIVE_CHECK_DURATION_MS,
                    isActivelyChecking := true }

/-- The scheduling state right after part_005 starts: `app.listen` calls
`pollBlynkData()` once, so one fetch is in flight and no timer is set. -/
def serverStart_v6 : LoopSt := startCycleSync ⟨0, false, false, 0⟩

/-! ## part_005 (v6.0) — startup token resolution -/

/-- The hardcoded fallback token in part_005 line 28. -/
def HARDCODED_TOKEN : String := "1NJUV0rE2TjnZxbTb89-tA0XmwGwZGCn"

/-- part_005 line 28: `process.env.BLYNK_AUTH_TOKEN || "1NJUV..."` — a JS
`||` takes the fallback when the environment variable is absent or the empty
string (both falsy). -/
def BLYNK_AUTH_TOKEN_v6 (envToken : Option String) : String :=
  match envToken with
  | none => HARDCODED_TOKEN
  | some s => if s = "" then HARDCODED_TOKEN else s

/-- part_005 lines 52-55: `if (!BLYNK_AUTH_TOKEN) { ...; process.exit(1) }`,
applied to the already-resolved token. -/
def startupExits_v6 (envToken : Option String) : Bool :=
  BLYNK_AUTH_TOKEN_v6 envToken = ""

/-! ## part_000 / part_009 (v6.3) — `pollBlynkData` with streak policy -/

/-- `STALE_POLL_THRESHOLD` in part_000 (line 20) and in the matching
part_009 section (line 198). -/
def STALE_POLL_THRESHOLD_v63 : Nat := 10

/-- `POLLING_RATE_MS` in part_000. -/
def POLLING_RATE_MS_v63 : Nat := 2000

/-- The mutable globals of the v6.3 variant read and written by
`pollBlynkData`. -/
structure V63State where
  deviceDataCache : Snapshot
  lastUptimeValue : Int
  consecutiveStalePolls : Nat
  isDeviceOnline : Bool
  isPollingActive : Bool
deriving DecidableEq, Repr

/-- Output of one v6.3 polling cycle: the new state, whether the next cycle
was scheduled, and whether the safety shutdown (power relay off) was
triggered. -/
structure V63Out where
  state : V63State
  rescheduled : Bool
  safetyShutdown : Bool
deriving DecidableEq, Repr

/-- One cycle of the v6.3 `pollBlynkData` (part_000 lines 108-146, part_009
lines 289-338).  The `isPollingActive` master gate stops the loop; an API
failure (the helper returns `null`) counts as a stale poll; on success the
cycle is stale only if the uptime is unchanged AND the device was online
(else it is fresh: reset streak, mark online, update trackers, replace the
cache); crossing the threshold marks offline, stops polling and fires the
safety relay shutdown. -/
def pollBlynkData_v63 (st : V63State) (res : FetchResult) : V63Out :=
  if st.isPollingActive = false then ⟨st, false, false⟩
  else
    let st₁ :=
      match res with
      | .err _ =>
          { st with consecutiveStalePolls := st.consecutiveStalePolls + 1 }
      | .ok newData =>
          let currentUptime := extractUptime newData
          if st.lastUptimeValue = currentUptime ∧ st.isDeviceOnline then
            { st with consecutiveStalePolls := st.consecutiveStalePolls + 1 }
          else
            { st with isDeviceOnline := true, consecutiveStalePolls := 0,
                      lastUptimeValue := currentUptime,
                      deviceDataCache := newData }
    if STALE_POLL_THRESHOLD_v63 ≤ st₁.consecutiveStalePolls then
      ⟨{ st₁ with isDeviceOnline := false, isPollingActive := false },
       false, true⟩
    else ⟨st₁, true, false⟩

/-- One v6.3 cycle fed a network failure (state part only). -/
def applyNetErr (st : V63State) : V63State :=
  (pollBlynkData_v63 st (.err .networkFailure)).state

/-- Iterated consecutive network failures in the v6.3 variant. -/
def iterNetErr : Nat → V63State → V63State
  | 0, st => st
  | k + 1, st => applyNetErr (iterNetErr k st)

/-! ## Spec-side definition for the scheduler-tier refinement comparison -/

/-- Follows the spec's words (section 4.3 `nextDelay`): the `ACTIVE_CHECK`
tier is listed first (window set and unexpired), then the online tier, then
the offline default.  This is the comparison point for the tier-precedence
claim; the code-side definition is `getNextPollRate`. -/
def specNextDelay (activeCheckUnexpired online : Bool) : Nat :=
  if activeCheckUnexpired then POLLING_RATE_ACTIVE_CHECK_MS
  else if online then POLLING_RATE_ONLINE_MS
  else POLLING_RATE_OFFLINE_MS

/-! ## The concrete scenario of spec section 8 on the server.js cycle -/

/-- Scenario start: online, `lastHeartbeat = 5` already set, zero streak. -/
def c6s0 : ServerState := ⟨emptySnap, 5, true, 0⟩

/-- Scenario cycle 1: heartbeat 5 observed. -/
def c6o1 : SOut := runOnlinePollingCycle c6s0 (.ok (snap 5))

/-- Scenario cycle 2: heartbeat 5 observed. -/
def c6o2 : SOut := runOnlinePollingCycle c6o1.state (.ok (snap 5))

/-- Scenario cycle 3: heartbeat 5 observed. -/
def c6o3 : SOut := runOnlinePollingCycle c6o2.state (.ok (snap 5))

/-- Scenario cycle 4: heartbeat 5 observed. -/
def c6o4 : SOut := runOnlinePollingCycle c6o3.state (.ok (snap 5))

/-- Scenario cycle 5: heartbeat 7 observed. -/
def c6o5 : SOut := runOnlinePollingCycle c6o4.state (.ok (snap 7))

/-! ## Named concrete inputs used by counterexamples and witnesses -/

/-- A snapshot with an unchanged heartbeat 5 and one other pin value. -/
def snapA : Snapshot := ⟨some 5, [("v0", "1")]⟩

/-- A second snapshot with the same heartbeat 5 but a different pin value. -/
def snapB : Snapshot := ⟨some 5, [("v0", "2")]⟩

/-- A v6.3 state: online, streak 0, polling active, cache `snapA`. -/
def stC7 : V63State := ⟨snapA, 5, 0, true, true⟩

/-- A v6.3 state: online, streak 0, polling active. -/
def stC2 : V63State := ⟨emptySnap, 5, 0, true, true⟩

/-- The initial reconnect-controller state of `server.js`. -/
def stC3 : ReconnectState := ⟨0, false, false⟩

/-- A part_005 state that has observed nothing yet (offline, sentinel -1). -/
def stC4 : V6State := ⟨emptySnap, -1, 0, false, false⟩

/-- A part_005 state that is offline but inside an active-check window. -/
def stC8 : V6State := ⟨emptySnap, 0, 0, false, true⟩

/-- A part_005 state that is online while the active-check flag is still
raised (reachable: the force-poll handler raises the flag without checking
`isDeviceOnline`). -/
def stC8both : V6State := ⟨emptySnap, 0, 0, true, true⟩

/-! ## Claim theorems -/

/-- C1 counterexample: in `server.js` a polling cycle that hits a fetch
error does NOT schedule the next cycle — from an online state with a zero
streak, one `NetworkFailure` ends the cycle with no `setTimeout` call
(`nextDelay = none`), so a fetch error does stop that loop. -/
theorem c1_counterexample :
    (runOnlinePollingCycle ⟨emptySnap, 5, true, 0⟩
        (.err .networkFailure)).nextDelay = none := rfl

/-- C1 amended: in part_005 (and likewise part_001) every polling cycle ends
by scheduling the next cycle, whatever the fetch result was — the `finally`
block always produces a next delay, and that delay is one of the three
configured cadence tiers. -/
theorem c1_amended_reschedule (st : V6State) (res : FetchResult) (now : Nat) :
    ∃ d, (pollBlynkData_v6 st res now).nextDelay = some d ∧
      (d = POLLING_RATE_ONLINE_MS ∨ d = POLLING_RATE_ACTIVE_CHECK_MS ∨
        d = POLLING_RATE_OFFLINE_MS) := by
  refine ⟨getNextPollRate (pollBlynkDataBody_v6 st res now).1, rfl, ?_⟩
  unfold getNextPollRate
  split_ifs <;> simp

/-- C5: part_005 starts with one fetch in flight; a force-poll message
arriving then (cooldown expired) makes the handler call `pollBlynkData`
directly, so a second fetch is started while the first is still pending —
two cycles are in flight at once, violating the no-overlap property. -/
theorem c5_force_poll_overlap :
    serverStart_v6.inFlight = 1 ∧
    (loopStep serverStart_v6 (.forcePoll 5)).inFlight = 2 := by decide

/-- C6: the concrete scenario of spec section 8 on the `server.js` cycle
(threshold 3): starting online with `lastHeartbeat = 5` and zero streak, the
heartbeat sequence 5, 5, 5, 5, 7 gives streaks 1, 2 (still online), 3 with
the OFFLINE transition, 4 (still offline), then 0 with the ONLINE transition
and both a status-changed and a data-updated event. -/
theorem c6_scenario :
    (c6o1.state.consecutiveStalePolls = 1 ∧ c6o1.state.isDeviceOnline = true) ∧
    (c6o2.state.consecutiveStalePolls = 2 ∧ c6o2.state.isDeviceOnline = true) ∧
    (c6o3.state.consecutiveStalePolls = 3 ∧ c6o3.state.isDeviceOnline = false ∧
      c6o3.events = [.statusChanged false]) ∧
    (c6o4.state.consecutiveStalePolls = 4 ∧ c6o4.state.isDeviceOnline = false) ∧
    (c6o5.state.consecutiveStalePolls = 0 ∧ c6o5.state.isDeviceOnline = true ∧
      c6o5.events = [.statusChanged true, .dataUpdated (snap 7)]) := by decide

/-- C7 counterexample: in the part_009/part_000 variant a successful fetch
whose heartbeat is unchanged leaves `cachedSnapshot` untouched — the cache
still holds the old snapshot, not the newly fetched one. -/
theorem c7_counterexample :
    (pollBlynkData_v63 stC7 (.ok snapB)).state.deviceDataCache = snapA ∧
    snapA ≠ snapB := by decide

/-- C7 amended: in part_005 every successful fetch replaces the cached
snapshot entirely by the newly fetched pin set, whatever the freshness
outcome and the online belief. -/
theorem c7_amended_replace (st : V6State) (d : Snapshot) (now : Nat) :
    (pollBlynkData_v6 st (.ok d) now).state.deviceDataCache = d := by
  simp only [pollBlynkData_v6, pollBlynkDataBody_v6, broadcastDataUpdate]
  split <;> rfl

/-- C8 counterexample: on a state that is online while the active-check flag
is raised, `getNextPollRate` returns the online interval, but the precedence
stated by the spec (active-check first) demands the active-check interval —
the two disagree. -/
theorem c8_counterexample :
    getNextPollRate stC8both = POLLING_RATE_ONLINE_MS ∧
    specNextDelay stC8both.isActivelyChecking stC8both.isDeviceOnline
      = POLLING_RATE_ACTIVE_CHECK_MS ∧
    POLLING_RATE_ONLINE_MS ≠ POLLING_RATE_ACTIVE_CHECK_MS := by decide

/-- C8 amended: `getNextPollRate` agrees with the spec's tier precedence on
every state in which the device is not simultaneously online and actively
checking; on the overlap the code prefers the online tier. -/
theorem c8_amended_precedence (st : V6State)
    (h : ¬(st.isDeviceOnline = true ∧ st.isActivelyChecking = true)) :
    getNextPollRate st
      = specNextDelay st.isActivelyChecking st.isDeviceOnline := by
  rcases st with ⟨c, u, t, o, a⟩
  cases o <;> cases a <;> simp_all [getNextPollRate, specNextDelay]

/-- Witness for the C8 amended theorem at a concrete state: offline with the
active-check flag raised, both sides give the active-check interval. -/
theorem c8_amended_precedence_witness :
    ¬(stC8.isDeviceOnline = true ∧ stC8.isActivelyChecking = true) ∧
    getNextPollRate stC8
      = specNextDelay stC8.isActivelyChecking stC8.isDeviceOnline :=
  ⟨by decide, c8_amended_precedence stC8 (by decide)⟩

/-- C9: with no token in the environment, part_005 resolves the hardcoded
fallback token, so its own critical startup check never fires and the
process starts anyway; `server.js` does refuse to start on the same input. -/
theorem c9_token_fallback :
    startupExits_v6 none = false ∧
    BLYNK_AUTH_TOKEN_v6 none = HARDCODED_TOKEN ∧
    startupExits_v30 none = true := by
  refine ⟨by decide, rfl, rfl⟩

/-- C10: every `data-update` message built by part_005's
`broadcastDataUpdate` has `isFresh` equal to the conjunction of the
observation's freshness with the current online belief, so no message ever
carries `isFresh = true` together with `isOnline = false`. -/
theorem c10_fresh_implies_online (st : V6State) (d : Snapshot) (f : Bool)
    (now : Nat) :
    ((broadcastDataUpdate st d f now).2.isFresh = (f && st.isDeviceOnline)) ∧
    (((broadcastDataUpdate st d f now).2.isFresh &&
        !(broadcastDataUpdate st d f now).2.isOnline) = false) := by
  cases f <;> cases h : st.isDeviceOnline <;> simp [broadcastDataUpdate, h]

/-- C2 counterexample: in `server.js`, from an online state with a zero
streak a single `NetworkFailure` immediately flips the belief to offline and
leaves the staleness counter untouched — the error neither merely increments
the counter nor waits for the threshold. -/
theorem c2_counterexample :
    (runOnlinePollingCycle ⟨emptySnap, 5, true, 0⟩
        (.err .networkFailure)).state = ⟨emptySnap, 5, false, 0⟩ := by decide

/-- One v6.3 error cycle below the threshold only increments the streak. -/
theorem applyNetErr_active (st : V63State) (h2 : st.isPollingActive = true)
    (h : st.consecutiveStalePolls + 1 < STALE_POLL_THRESHOLD_v63) :
    applyNetErr st
      = { st with consecutiveStalePolls := st.consecutiveStalePolls + 1 } := by
  unfold applyNetErr pollBlynkData_v63
  rw [if_neg (by simp [h2]), if_neg (by simpa using Nat.not_le_of_lt h)]

/-- Below the threshold, k consecutive v6.3 error cycles starting from a
zero streak leave the device online and the streak at exactly k. -/
theorem iterNetErr_lt (st : V63State) (h1 : st.isDeviceOnline = true)
    (h2 : st.isPollingActive = true) (h3 : st.consecutiveStalePolls = 0) :
    ∀ k, k < STALE_POLL_THRESHOLD_v63 →
      iterNetErr k st = { st with consecutiveStalePolls := k } := by
  intro k
  induction k with
  | zero =>
      intro _
      cases st
      simp_all [iterNetErr]
  | succ n ih =>
      intro hk
      rw [iterNetErr, ih (by omega), applyNetErr_active]
      · exact h2
      · show n + 1 < STALE_POLL_THRESHOLD_v63
        omega

/-- The tenth consecutive v6.3 error cycle crosses the threshold: the streak
reaches 10, the device is marked offline and polling stops. -/
theorem iterNetErr_ten (st : V63State) (h1 : st.isDeviceOnline = true)
    (h2 : st.isPollingActive = true) (h3 : st.consecutiveStalePolls = 0) :
    iterNetErr STALE_POLL_THRESHOLD_v63 st
      = { st with consecutiveStalePolls := STALE_POLL_THRESHOLD_v63,
                  isDeviceOnline := false, isPollingActive := false } := by
  have h10 : STALE_POLL_THRESHOLD_v63 = 9 + 1 := rfl
  rw [h10, iterNetErr, iterNetErr_lt st h1 h2 h3 9 (by decide)]
  unfold applyNetErr pollBlynkData_v63
  rw [if_neg (by simp [h2]), if_pos (by simp [STALE_POLL_THRESHOLD_v63])]

/-- C2 amended: under the streak policy of part_000/part_009 (threshold 10),
starting online with a zero streak, k consecutive fetch errors only raise
the staleness counter to k, and the belief stays online exactly while
k is below the threshold — the transition to OFFLINE happens at the tenth
consecutive failure and not before.  (`server.js`, by contrast, flips on a
single error: see the C2 counterexample.) -/
theorem c2_amended_streak (st : V63State) (k : Nat)
    (h1 : st.isDeviceOnline = true) (h2 : st.isPollingActive = true)
    (h3 : st.consecutiveStalePolls = 0) (hk : k ≤ STALE_POLL_THRESHOLD_v63) :
    (iterNetErr k st).consecutiveStalePolls = k ∧
      ((iterNetErr k st).isDeviceOnline = true
        ↔ k < STALE_POLL_THRESHOLD_v63) := by
  rcases Nat.lt_or_ge k STALE_POLL_THRESHOLD_v63 with hlt | hge
  · rw [iterNetErr_lt st h1 h2 h3 k hlt]
    exact ⟨rfl, by simp [h1, hlt]⟩
  · have hk10 : k = STALE_POLL_THRESHOLD_v63 := le_antisymm hk hge
    subst hk10
    rw [iterNetErr_ten st h1 h2 h3]
    simp

/-- Witness for the C2 amended theorem: from the concrete online state
`stC2`, ten consecutive network failures leave the streak at 10 and the
device offline. -/
theorem c2_amended_streak_witness :
    (stC2.isDeviceOnline = true ∧ stC2.isPollingActive = true ∧
      stC2.consecutiveStalePolls = 0 ∧ 10 ≤ STALE_POLL_THRESHOLD_v63) ∧
    ((iterNetErr 10 stC2).consecutiveStalePolls = 10 ∧
      ((iterNetErr 10 stC2).isDeviceOnline = true
        ↔ 10 < STALE_POLL_THRESHOLD_v63)) :=
  ⟨⟨rfl, rfl, rfl, by decide⟩,
    c2_amended_streak stC2 10 rfl rfl rfl (by decide)⟩

/-- C3: if a manual reconnect is accepted at time t1, then a second request
at any time t2 within the cooldown window is rejected with a strictly
positive remaining-cooldown value and mutates no state — exactly one of the
two calls is accepted. -/
theorem c3_cooldown_enforcement (st : ReconnectState) (t1 t2 : Nat)
    (_hle : t1 ≤ t2) (hwin : t2 - t1 < RECONNECT_COOLDOWN_MS)
    (hacc : (apiReconnect st t1).2 = .accepted) :
    ∃ r, 0 < r ∧
      apiReconnect (apiReconnect st t1).1 t2
        = ((apiReconnect st t1).1, .cooldown r) := by
  by_cases hc : t1 - st.lastReconnectTime < RECONNECT_COOLDOWN_MS
  · exact absurd hacc (by simp [apiReconnect, hc])
  by_cases hr : st.isReconnecting = true
  · exact absurd hacc (by simp [apiReconnect, hc, hr])
  by_cases ho : st.isDeviceOnline = true
  · exact absurd hacc (by simp [apiReconnect, hc, hr, ho])
  have hst1 : (apiReconnect st t1).1 = { st with lastReconnectTime := t1 } := by
    simp [apiReconnect, hc, hr, ho]
  rw [hst1]
  refine ⟨(RECONNECT_COOLDOWN_MS - (t2 - t1) + 999) / 1000, ?_, ?_⟩
  · apply Nat.div_pos
    · unfold RECONNECT_COOLDOWN_MS at hwin ⊢
      omega
    · norm_num
  · simp [apiReconnect, hwin]

/-- Witness for the C3 theorem: from the initial controller state, a request
at t = 20000 is accepted and a second request at t = 25000 (inside the 10 s
cooldown) is rejected with a positive remaining value and no state change. -/
theorem c3_cooldown_enforcement_witness :
    (20000 ≤ 25000 ∧ 25000 - 20000 < RECONNECT_COOLDOWN_MS ∧
      (apiReconnect stC3 20000).2 = .accepted) ∧
    ∃ r, 0 < r ∧
      apiReconnect (apiReconnect stC3 20000).1 25000
        = ((apiReconnect stC3 20000).1, .cooldown r) :=
  ⟨⟨by decide, by decide, by decide⟩,
    c3_cooldown_enforcement stC3 20000 25000 (by decide) (by decide)
      (by decide)⟩

/-- C4 counterexample: in `server.js` (which has no `heartbeat > 0` guard) a
successful fetch whose heartbeat parses to 0 IS treated as fresh against the
sentinel `lastUptimeValue = -1`: the stale streak resets, `lastUptimeValue`
becomes 0, the belief flips OFFLINE to ONLINE and a status-changed event is
published. -/
theorem c4_counterexample :
    (runOnlinePollingCycle ⟨emptySnap, -1, false, 2⟩ (.ok (snap 0))).state
        = ⟨snap 0, 0, true, 0⟩ ∧
    (runOnlinePollingCycle ⟨emptySnap, -1, false, 2⟩ (.ok (snap 0))).events
        = [.statusChanged true, .dataUpdated (snap 0)] := by decide

/-- C4 amended: in part_005 a heartbeat of exactly 0 is never treated as
fresh — the observation leaves `lastUptimeValue` and
`lastFreshDataTimestamp` unchanged, and an offline device stays offline. -/
theorem c4_amended_zero_never_fresh (st : V6State) (d : Snapshot) (now : Nat)
    (h : extractUptime d = 0) :
    (pollBlynkData_v6 st (.ok d) now).state.lastUptimeValue
        = st.lastUptimeValue ∧
    (pollBlynkData_v6 st (.ok d) now).state.lastFreshDataTimestamp
        = st.lastFreshDataTimestamp ∧
    (st.isDeviceOnline = false →
      (pollBlynkData_v6 st (.ok d) now).state.isDeviceOnline = false) := by
  have hcond : ¬(0 < extractUptime d ∧ extractUptime d ≠ st.lastUptimeValue) := by
    simp [h]
  simp only [pollBlynkData_v6, pollBlynkDataBody_v6, if_neg hcond,
    broadcastDataUpdate]
  refine ⟨?_, ?_, ?_⟩
  · split <;> rfl
  · split <;> rfl
  · intro ho
    rw [if_neg (by simp [ho])]
    exact ho

/-- Witness for the C4 amended theorem: observing heartbeat 0 from the
never-observed state `stC4` changes neither tracker and keeps the device
offline. -/
theorem c4_amended_zero_never_fresh_witness :
    extractUptime (snap 0) = 0 ∧
    ((pollBlynkData_v6 stC4 (.ok (snap 0)) 100).state.lastUptimeValue
        = stC4.lastUptimeValue ∧
      (pollBlynkData_v6 stC4 (.ok (snap 0)) 100).state.lastFreshDataTimestamp
        = stC4.lastFreshDataTimestamp ∧
      (stC4.isDeviceOnline = false →
        (pollBlynkData_v6 stC4 (.ok (snap 0)) 100).state.isDeviceOnline
          = false)) :=
  ⟨rfl, c4_amended_zero_never_fresh stC4 (snap 0) 100 rfl⟩
